import Mathlib

/-!
Shallow embedding of the RS485 multi-device Modbus RTU slave simulator
(the Node.js server: device registry, per-slave register bank, CRC16,
resynchronising frame parser, request dispatcher for FC 03/04/06/16,
write validator with password unlock, and the reactive behavior hooks).

Conventions of the embedding:
- JS `Buffer` byte sequences are `List Nat` (bytes are values below 256).
- The per-device `Uint16Array(65536)` register store is an association
  list `Store`; `storeWrite` truncates values mod 2 ^ 16 and ignores
  out-of-range addresses, `storeRead` returns 0 for absent or
  out-of-range addresses, exactly matching typed-array semantics
  (`mem[addr] || 0`).
- JS `Map` / object dictionaries (`devices`, `memory`,
  `deviceUnlockState`) are association lists keyed by slave id, updated
  by prepending (the most recent binding wins in `alookup`).
- `Date.now()` is an explicit `now : Nat` argument (milliseconds).
- `io.emit` log / update events are recorded in `SimState.events`
  (most recent first); persistence and the serial port are outside the
  model, and frame extraction (`processBuffer`) is modelled as a pure
  function from the input buffer to the list of frames it hands to
  `handleFrame`, in order, plus the retained buffer.
-/

set_option maxRecDepth 8000

/-- Device type of a simulated slave: the `type` field of the registry. -/
inductive DevType
  | inverter
  | flowmeter
  | energymeter
deriving DecidableEq, Repr

/-- Registry entry for one slave id. -/
structure Device where
  type : DevType
  enabled : Bool
deriving DecidableEq, Repr

/-- Password/unlock state per device, as in the `deviceUnlockState` map. -/
structure UnlockState where
  unlocked : Bool
  lastActivity : Nat
deriving DecidableEq, Repr

/-- Observable events emitted through `io.emit` by the embedded core. -/
inductive Event
  | disabledIgnored (id : Nat)
  | readLog (id fc addr count : Nat)
  | writeLog (id addr val : Nat)
  | writeMultiLog (id addr count : Nat)
  | rejected (id code : Nat)
  | regUpdate (id addr val : Nat)
  | autoLocked (id : Nat)
  | passwordSet (id : Nat)
  | unlockedViaPassword (id : Nat)
  | wrongPassword (id : Nat)
  | controlCmd (id val : Nat)
  | stopCmd (id : Nat)
  | runCmd (id val : Nat)
  | paramWrite (id addr val : Nat)
  | batchUpdate (id : Nat) (updates : List (Nat × Nat))
deriving DecidableEq, Repr

/-- Register store of one device (the `Uint16Array(65536)`), as an
association list from address to value; absent addresses read as 0. -/
abbrev Store := List (Nat × Nat)

/-- Association-list lookup keyed by `Nat` (JS `Map.get` / property read). -/
def alookup {α : Type} : List (Nat × α) → Nat → Option α
  | [], _ => none
  | (k, v) :: rest, key => if key = k then some v else alookup rest key

/-- Read a register: `mem[addr] || 0`, with out-of-range typed-array reads
giving `undefined` hence 0. -/
def storeRead (s : Store) (a : Nat) : Nat :=
  if a < 65536 then (alookup s a).getD 0 else 0

/-- Write a register: `mem[addr] = val`. `Uint16Array` stores the value
mod 2 ^ 16 and silently drops out-of-range indices. -/
def storeWrite (s : Store) (a v : Nat) : Store :=
  if a < 65536 then (a, v % 65536) :: s else s

/-- Whole simulator state threaded through the embedded functions. -/
structure SimState where
  devices : List (Nat × Device)
  memory : List (Nat × Store)
  unlockStates : List (Nat × UnlockState)
  events : List Event
deriving DecidableEq, Repr

/-- Record one emitted event (most recent first). -/
def pushEvent (st : SimState) (e : Event) : SimState :=
  { st with events := e :: st.events }

/-- The `inverterDefaults` register profile (FR500A/FR510A). -/
def inverterDefaults : Store :=
  [(0x2000, 0),
   (0x3000, 5000), (0x3002, 2200), (0x3003, 50), (0x3004, 11),
   (0x3005, 1450), (0x3006, 3100), (0x3017, 350), (0x3023, 999),
   (0x3100, 0),
   (0x8000, 0), (0x8001, 0), (0x8006, 0), (0x8200, 0), (0x840A, 1),
   (0x0B15, 45),
   (0x0300, 5000), (0x0302, 2200), (0x0303, 50), (0x0304, 11),
   (0x0305, 1450), (0x0306, 3100), (0x0317, 350), (0x0323, 999)]

/-- The `flowMeterDefaults` register profile (CR009, CDAB word order). -/
def flowMeterDefaults : Store :=
  [(772, 0), (773, 0), (774, 0x0403), (777, 0), (778, 0), (779, 0),
   (786, 0), (812, 0), (813, 0),
   (261, 0x0000), (262, 0x43D4), (281, 0x0000), (282, 0x42C8),
   (283, 0x0000), (284, 0x0000), (285, 0x4120)]

/-- The `energyMeterDefaults` register profile (ADL400). -/
def energyMeterDefaults : Store :=
  [(0x0800, 0), (0x0802, 0), (0x0804, 0),
   (0x080C, 0), (0x080E, 0), (0x0810, 0),
   (0x0806, 0), (0x0808, 0), (0x080A, 0), (0x060A, 0),
   (0x082E, 0x3F80), (0x0830, 0x3F80), (0x0832, 0x3F80),
   (0x0834, 0x0032),
   (0x0842, 0), (0x0844, 0), (0x0846, 0), (0x0848, 0),
   (0x0864, 0), (0x0866, 0), (0x0868, 0), (0x086A, 0),
   (0x6002, 0), (0x6004, 0), (0x7002, 0), (0x7004, 0),
   (0x008D, 0x0001), (0x008E, 0x0001),
   (0x0100, 0), (0x0101, 0), (0x0102, 0), (0x0103, 0)]

/-- Default profile applied when a store is first materialised for a
device of the given type (the `defs` selection in `getMem`). -/
def defaultsFor : DevType → Store
  | DevType.inverter => inverterDefaults
  | DevType.flowmeter => flowMeterDefaults
  | DevType.energymeter => energyMeterDefaults

/-- The `getDeviceType` helper: registry lookup, defaulting to inverter. -/
def getDeviceType (st : SimState) (id : Nat) : DevType :=
  match alookup st.devices id with
  | some d => d.type
  | none => DevType.inverter

/-- The `isDeviceEnabled` helper: false for unknown ids. -/
def isDeviceEnabled (st : SimState) (id : Nat) : Bool :=
  match alookup st.devices id with
  | some d => d.enabled
  | none => false

/-- The `getMem` accessor: returns the device's store, materialising it
with the type-specific defaults on first access (lazy allocation for any
id, registered or not). -/
def getMem (st : SimState) (unitID : Nat) : Store × SimState :=
  match alookup st.memory unitID with
  | some s => (s, st)
  | none =>
    let s := defaultsFor (getDeviceType st unitID)
    (s, { st with memory := (unitID, s) :: st.memory })

/-- Overwrite the store of a device that already has one (every caller
materialises via `getMem` first, so the missing case never fires). -/
def writeMem (st : SimState) (unitID a v : Nat) : SimState :=
  match alookup st.memory unitID with
  | some s => { st with memory := (unitID, storeWrite s a v) :: st.memory }
  | none => st

/-- The `getUnlockState` accessor: materialises the default locked state
on first access. -/
def getUnlockState (st : SimState) (unitID : Nat) : UnlockState × SimState :=
  match alookup st.unlockStates unitID with
  | some u => (u, st)
  | none =>
    let u : UnlockState := { unlocked := false, lastActivity := 0 }
    (u, { st with unlockStates := (unitID, u) :: st.unlockStates })

/-- Store a device's unlock state. -/
def setUnlock (st : SimState) (unitID : Nat) (u : UnlockState) : SimState :=
  { st with unlockStates := (unitID, u) :: st.unlockStates }

/-- The 5-minute `UNLOCK_TIMEOUT_MS` constant. -/
def UNLOCK_TIMEOUT_MS : Nat := 5 * 60 * 1000

/-- The `READ_ONLY_REGISTERS` list. -/
def READ_ONLY_REGISTERS : List Nat := [0x2100, 0x2101]

/-- The `isU00Register` range test (0x3000..0x30FF). -/
def isU00Register (addr : Nat) : Bool :=
  decide (0x3000 ≤ addr) && decide (addr ≤ 0x30FF)

/-- The `isU01Register` range test (0x3100..0x31FF). -/
def isU01Register (addr : Nat) : Bool :=
  decide (0x3100 ≤ addr) && decide (addr ≤ 0x31FF)

/-- Value check against the `CONTROL_REGISTERS` table: `none` when the
value is acceptable, `some 0x03` when rejected. Values arrive as
unsigned 16-bit reads, compared as JS numbers (hence the `Int` casts for
the signed torque bound). -/
def controlRegCheck (addr val : Nat) : Option Nat :=
  if addr = 0x2000 then
    if val ∈ [0, 1, 2, 3, 4, 5, 6, 7] then none else some 0x03
  else if addr = 0x2001 then
    if (val : Int) < 0 ∨ (val : Int) > 60000 then some 0x03 else none
  else if addr = 0x2002 then
    if (val : Int) < 0 ∨ (val : Int) > 1000 then some 0x03 else none
  else if addr = 0x2003 then
    if (val : Int) < 0 ∨ (val : Int) > 1000 then some 0x03 else none
  else if addr = 0x2004 then
    if (val : Int) < -3000 ∨ (val : Int) > 3000 then some 0x03 else none
  else none

/-- The `validateWriteRequest` function. Returns `none` for a valid
write and `some errorCode` for a rejected one, together with the state
after its side effects (store/unlock materialisation, the 5-minute
auto-lock at the start, and the `lastActivity` refresh for an unlocked
device on a valid write). Note the source never consults the device
type here: the FR500A inverter rules apply to every device. -/
def validateWriteRequest (st0 : SimState) (addr val unitID now : Nat) :
    Option Nat × SimState :=
  let p := getMem st0 unitID
  let mem := p.1
  let q := getUnlockState p.2 unitID
  let u0 := q.1
  let hasTimedOut := u0.unlocked && decide (now - u0.lastActivity > UNLOCK_TIMEOUT_MS)
  let u := if hasTimedOut then { u0 with unlocked := false } else u0
  let st :=
    if hasTimedOut then
      pushEvent (setUnlock q.2 unitID u) (Event.autoLocked unitID)
    else q.2
  if addr = 0x0000 then (none, st)
  else if addr ∈ READ_ONLY_REGISTERS || isU00Register addr || isU01Register addr then
    (some 0x02, st)
  else
    let paramProtection := storeRead mem 0x0002
    if paramProtection = 1 ∧ addr ≠ 0x0002 ∧ u.unlocked = false then
      (some 0x04, st)
    else
      match controlRegCheck addr val with
      | some code => (some code, st)
      | none =>
        if u.unlocked then
          (none, setUnlock st unitID { u with lastActivity := now })
        else (none, st)

/-- The `handlePasswordWrite` hook, fired after the register write: on a
write to 0x0000 it compares the written value with the value currently
stored at 0x0000 (which the dispatcher has already overwritten). -/
def handlePasswordWrite (st0 : SimState) (addr val unitID now : Nat) : SimState :=
  if addr ≠ 0x0000 then st0
  else
    let p := getMem st0 unitID
    let mem := p.1
    let q := getUnlockState p.2 unitID
    let st := q.2
    let storedPassword := storeRead mem 0x0000
    if storedPassword = 0 then pushEvent st (Event.passwordSet unitID)
    else if val = storedPassword then
      pushEvent (setUnlock st unitID { unlocked := true, lastActivity := now })
        (Event.unlockedViaPassword unitID)
    else pushEvent st (Event.wrongPassword unitID)

/-- The twelve telemetry registers touched by `handleControlCommand`
(primary 0x3000-range plus the mirrored 0x0300-range). -/
def ctrlRegs : List Nat :=
  [0x3000, 0x0300, 0x3002, 0x0302, 0x3003, 0x0303,
   0x3004, 0x0304, 0x3005, 0x0305, 0x3023, 0x0323]

/-- The `values` table of the run branch of `handleControlCommand`,
derived from the slave id; registers outside the table map to 0. -/
def runValue (id r : Nat) : Nat :=
  if r = 0x3000 ∨ r = 0x0300 then id * 10 * 100
  else if r = 0x3002 ∨ r = 0x0302 then (100 + id * 10) * 10
  else if r = 0x3003 ∨ r = 0x0303 then id * 10
  else if r = 0x3004 ∨ r = 0x0304 then id * 10
  else if r = 0x3005 ∨ r = 0x0305 then id * 100
  else if r = 0x3023 ∨ r = 0x0323 then id
  else 0

/-- The `handleControlCommand` hook for writes to 0x2000: stop values
zero the telemetry registers, run values re-initialise them from the
slave id, anything else only logs. -/
def handleControlCommand (st0 : SimState) (val unitID : Nat) : SimState :=
  let st := pushEvent st0 (Event.controlCmd unitID val)
  let p := getMem st unitID
  let st := p.2
  if val = 5 ∨ val = 6 ∨ val = 0 then
    let st := pushEvent st (Event.stopCmd unitID)
    let st := ctrlRegs.foldl (fun s r => writeMem s unitID r 0) st
    pushEvent st (Event.batchUpdate unitID (ctrlRegs.map (fun r => (r, 0))))
  else if val = 1 ∨ val = 2 ∨ val = 3 ∨ val = 4 then
    let st := pushEvent st (Event.runCmd unitID val)
    let st := ctrlRegs.foldl (fun s r => writeMem s unitID r (runValue unitID r)) st
    pushEvent st (Event.batchUpdate unitID (ctrlRegs.map (fun r => (r, runValue unitID r))))
  else st

/-- The `handleParameterWrite` hook: named-parameter logging only. -/
def handleParameterWrite (st : SimState) (addr val unitID : Nat) : SimState :=
  if addr = 0x8000 ∨ addr = 0x8001 ∨ addr = 0x8006 ∨ addr = 0x8200 ∨ addr = 0x840A then
    pushEvent st (Event.paramWrite unitID addr val)
  else st

/-- The `calculateCRC` inner loop: one shift-feedback round of the
reflected CRC-16 with polynomial 0xA001. -/
def crcRound (c : Nat) : Nat :=
  if c % 2 = 1 then (c / 2) ^^^ 0xA001 else c / 2

/-- One input byte of `calculateCRC`: xor into the register, then eight
shift rounds. -/
def crcByte (c b : Nat) : Nat :=
  crcRound (crcRound (crcRound (crcRound
    (crcRound (crcRound (crcRound (crcRound (c ^^^ b))))))))

/-- The `calculateCRC` function: Modbus CRC-16, initial value 0xFFFF. -/
def calculateCRC (buf : List Nat) : Nat :=
  buf.foldl crcByte 0xFFFF

/-- Append the CRC of `body` in little-endian order, as every response
builder does via `writeUInt16LE`. -/
def sealFrame (body : List Nat) : List Nat :=
  body ++ [calculateCRC body % 256, calculateCRC body / 256]

/-- Big-endian 16-bit read at byte offset `i` (`readUInt16BE`). -/
def read16BE (l : List Nat) (i : Nat) : Nat :=
  l.getD i 0 * 256 + l.getD (i + 1) 0

/-- The `buildExceptionResponse` frame: id, fc with the high bit set,
exception code, CRC. -/
def buildExceptionResponse (unitID fc errorCode : Nat) : List Nat :=
  sealFrame [unitID, fc ||| 0x80, errorCode]

/-- The FC03/FC04 response built by `handleFrame`: id, fc, byte count,
big-endian register values read at `addr + i`, CRC. -/
def readResponse (unitID fc : Nat) (mem : Store) (addr count : Nat) : List Nat :=
  sealFrame (unitID :: fc :: count * 2 ::
    ((List.range count).map
      (fun i => [storeRead mem (addr + i) / 256, storeRead mem (addr + i) % 256])).flatten)

/-- The FC16 success response: id, fc, start address and register count
in big-endian, CRC. -/
def fc16Response (unitID addr count : Nat) : List Nat :=
  sealFrame [unitID, 16, addr / 256, addr % 256, count / 256, count % 256]

/-- The `(addr + i, val_i)` pairs of an FC16 request, with `val_i` the
big-endian 16-bit read at offset `2 * i` of the data section. -/
def subWrites (addr : Nat) (data : List Nat) (count : Nat) : List (Nat × Nat) :=
  (List.range count).map (fun i => (addr + i, read16BE data (2 * i)))

/-- The FC16 validation loop: validate sub-writes in order, stopping at
the first failure (whose warning is logged there), threading the
validator's state effects. -/
def validateAll (unitID now : Nat) : SimState → List (Nat × Nat) → Option Nat × SimState
  | st, [] => (none, st)
  | st, (a, v) :: rest =>
    match validateWriteRequest st a v unitID now with
    | (some code, st') => (some code, pushEvent st' (Event.rejected unitID code))
    | (none, st') => validateAll unitID now st' rest

/-- The FC16 write loop: write each register and fire the reactive hooks
(`reg-update`, password, control command, parameter report) per write. -/
def applyAll (unitID now : Nat) : SimState → List (Nat × Nat) → SimState
  | st, [] => st
  | st, (a, v) :: rest =>
    let st := writeMem st unitID a v
    let st := pushEvent st (Event.regUpdate unitID a v)
    let st := handlePasswordWrite st a v unitID now
    let st := if a = 0x2000 then handleControlCommand st v unitID else st
    let st := handleParameterWrite st a v unitID
    applyAll unitID now st rest

/-- The `handleFrame` dispatcher: registry and enable gating, then the
FC03/04, FC06 and FC16 branches. Returns the optional response frame
and the successor state. The FC03/04 branch mirrors the source exactly:
there is no count-range check, and a byte count above 255 makes the
Node `writeUInt8` call throw, so no response is produced. -/
def handleFrame (st0 : SimState) (now : Nat) (frame : List Nat) :
    Option (List Nat) × SimState :=
  let unitID := frame.getD 0 0
  let fc := frame.getD 1 0
  if (alookup st0.devices unitID).isNone then (none, st0)
  else if isDeviceEnabled st0 unitID = false then
    (none, pushEvent st0 (Event.disabledIgnored unitID))
  else
    let p := getMem st0 unitID
    let mem := p.1
    let st := p.2
    if fc = 3 ∨ fc = 4 then
      let addr := read16BE frame 2
      let count := read16BE frame 4
      let st := pushEvent st (Event.readLog unitID fc addr count)
      if count * 2 > 255 then (none, st)
      else (some (readResponse unitID fc mem addr count), st)
    else if fc = 6 then
      let addr := read16BE frame 2
      let val := read16BE frame 4
      let r := validateWriteRequest st addr val unitID now
      match r.1 with
      | some code =>
        (some (buildExceptionResponse unitID fc code), pushEvent r.2 (Event.rejected unitID code))
      | none =>
        let st := writeMem r.2 unitID addr val
        let st := pushEvent (pushEvent st (Event.regUpdate unitID addr val))
          (Event.writeLog unitID addr val)
        let st := handlePasswordWrite st addr val unitID now
        let st := if addr = 0x2000 then handleControlCommand st val unitID else st
        let st := handleParameterWrite st addr val unitID
        (some frame, st)
    else if fc = 16 then
      let addr := read16BE frame 2
      let count := read16BE frame 4
      let byteCount := frame.getD 6 0
      let data := (frame.drop 7).take byteCount
      let st := pushEvent st (Event.writeMultiLog unitID addr count)
      let r := validateAll unitID now st (subWrites addr data count)
      match r.1 with
      | some code => (some (buildExceptionResponse unitID 16 code), r.2)
      | none =>
        (some (fc16Response unitID addr count), applyAll unitID now r.2 (subWrites addr data count))
    else (none, st)

/-- The operator `set-register` socket handler: materialise, write,
broadcast, and fire the control-command hook; no registry check. -/
def setRegister (st0 : SimState) (id addr val : Nat) : SimState :=
  let p := getMem st0 id
  let st := writeMem p.2 id addr val
  let st := pushEvent st (Event.regUpdate id addr val)
  if addr = 0x2000 then handleControlCommand st val id else st

/-- One step of the `processBuffer` extraction loop at the cursor, with
explicit fuel (each recursive call consumes at least one byte, so fuel
equal to the buffer length suffices). Returns the extracted frames in
order and the retained buffer. -/
def parseLoopF : Nat → List Nat → List (List Nat) × List Nat
  | 0, buf => ([], buf)
  | fuel + 1, buf =>
    if 4 ≤ buf.length then
      let fc := buf.getD 1 0
      if fc = 3 ∨ fc = 4 ∨ fc = 6 ∨ fc = 16 then
        if fc = 16 then
          if 7 ≤ buf.length then
            let len := 9 + buf.getD 6 0
            if len ≤ buf.length then
              if buf.getD (len - 2) 0 + 256 * buf.getD (len - 1) 0 =
                  calculateCRC (buf.take (len - 2)) then
                let rest := parseLoopF fuel (buf.drop len)
                (buf.take len :: rest.1, rest.2)
              else parseLoopF fuel (buf.drop 1)
            else ([], buf)
          else ([], buf)
        else
          if 8 ≤ buf.length then
            if buf.getD 6 0 + 256 * buf.getD 7 0 = calculateCRC (buf.take 6) then
              let rest := parseLoopF fuel (buf.drop 8)
              (buf.take 8 :: rest.1, rest.2)
            else parseLoopF fuel (buf.drop 1)
          else ([], buf)
      else parseLoopF fuel (buf.drop 1)
    else ([], buf)

/-- The `processBuffer` entry: flush entirely when the buffer exceeds
4096 bytes, otherwise run the extraction loop. The frames in the first
component are exactly those handed to `handleFrame`, in order. -/
def processBuffer (buf : List Nat) : List (List Nat) × List Nat :=
  if 4096 < buf.length then ([], []) else parseLoopF buf.length buf

/-- Well-formed frame body (everything but the trailing CRC): byte
values, a supported function code, and the length the parser expects
for that function code. -/
def WFBody (body : List Nat) : Prop :=
  (∀ b ∈ body, b < 256) ∧
  (((body.getD 1 0 = 3 ∨ body.getD 1 0 = 4 ∨ body.getD 1 0 = 6) ∧ body.length = 6) ∨
   (body.getD 1 0 = 16 ∧ body.length = 7 + body.getD 6 0))

instance (body : List Nat) : Decidable (WFBody body) := by
  unfold WFBody; infer_instance

/-- Concrete state: one registered inverter with materialised defaults,
used for FC03/04 dispatch checks. -/
def readState : SimState :=
  ⟨[(1, ⟨DevType.inverter, true⟩)], [(1, inverterDefaults)], [], []⟩

/-- Concrete state: registered, enabled inverter 1 with a non-zero stored
password 1234 at register 0x0000 and locked unlock state. -/
def pwdState : SimState :=
  ⟨[(1, ⟨DevType.inverter, true⟩)], [(1, (0x0000, 1234) :: inverterDefaults)],
    [(1, ⟨false, 0⟩)], []⟩

/-- Concrete state: registered, enabled inverter with slave id 66. -/
def st66 : SimState :=
  ⟨[(66, ⟨DevType.inverter, true⟩)], [(66, inverterDefaults)], [], []⟩

/-- Concrete state: registered, enabled flowmeter 110 with its defaults. -/
def flowState : SimState :=
  ⟨[(110, ⟨DevType.flowmeter, true⟩)], [(110, flowMeterDefaults)], [], []⟩

/-- Concrete state: device 1 registered, no memory store allocated yet. -/
def rosterState : SimState :=
  ⟨[(1, ⟨DevType.inverter, true⟩)], [], [], []⟩

def expiredState : SimState :=
  ⟨[(7, ⟨DevType.inverter, true⟩)], [(7, inverterDefaults)], [(7, ⟨true, 0⟩)], []⟩

/-- Concrete state for the FC16 witness and the unlocked-device claim:
a registered enabled inverter, store materialised, device unlocked. -/
def unlockedState : SimState :=
  ⟨[(5, ⟨DevType.inverter, true⟩)], [(5, inverterDefaults)], [(5, ⟨true, 100⟩)], []⟩

/-- Concrete state for the FC16 atomicity witness. -/
def atomState : SimState :=
  ⟨[(1, ⟨DevType.inverter, true⟩)], [(1, inverterDefaults)], [], []⟩

/-- The flowmeter of `flowState` re-typed as an inverter, with the same
memory and unlock state. -/
def flowAsInverter : SimState :=
  ⟨[(110, ⟨DevType.inverter, true⟩)], [(110, flowMeterDefaults)], [], []⟩

/-- The telemetry store produced by a run command on top of store `s`. -/
def runStore (id : Nat) (s : Store) : Store :=
  ctrlRegs.foldl (fun acc r => storeWrite acc r (runValue id r)) s

lemma parseLoopF_nil (fuel : Nat) : parseLoopF fuel [] = ([], []) := by
  cases fuel <;> simp [parseLoopF]

lemma sealFrame_length (body : List Nat) : (sealFrame body).length = body.length + 2 := by
  simp [sealFrame]

lemma getD_lt_of_bytes {l : List Nat} (h : ∀ b ∈ l, b < 256) {i : Nat}
    (hi : i < l.length) : l.getD i 0 < 256 := by
  rw [List.getD_eq_getElem l 0 hi]
  exact h _ (List.getElem_mem hi)

lemma parseLoopF_seal (fuel : Nat) (body : List Nat) (h : WFBody body)
    (hfuel : (sealFrame body).length ≤ fuel) :
    parseLoopF fuel (sealFrame body) = ([sealFrame body], []) := by
  obtain ⟨hb, hcase⟩ := h
  have hlen : (sealFrame body).length = body.length + 2 := sealFrame_length body
  cases fuel with
  | zero =>
    exfalso
    rcases hcase with ⟨_, h6⟩ | ⟨_, h7⟩ <;> omega
  | succ f =>
    rcases hcase with ⟨hfc, h6⟩ | ⟨hfc, h7⟩
    · have hflen : (sealFrame body).length = 8 := by omega
      have hget1 : (sealFrame body).getD 1 0 = body.getD 1 0 :=
        List.getD_append _ _ _ _ (by omega)
      have hcrc : (sealFrame body).getD 6 0 + 256 * (sealFrame body).getD 7 0 =
          calculateCRC ((sealFrame body).take 6) := by
        have h6a : (sealFrame body).getD 6 0 = calculateCRC body % 256 := by
          unfold sealFrame
          rw [List.getD_append_right _ _ _ _ (by omega)]
          simp [h6]
        have h7a : (sealFrame body).getD 7 0 = calculateCRC body / 256 := by
          unfold sealFrame
          rw [List.getD_append_right _ _ _ _ (by omega)]
          simp [h6]
        have htake : (sealFrame body).take 6 = body := by
          unfold sealFrame
          rw [← h6, List.take_left]
        rw [h6a, h7a, htake, Nat.mod_add_div]
      have hdrop : (sealFrame body).drop 8 = [] := by
        rw [← hflen, List.drop_length]
      have htake8 : (sealFrame body).take 8 = sealFrame body := by
        rw [← hflen, List.take_length]
      simp only [parseLoopF]
      rw [if_pos (show 4 ≤ (sealFrame body).length by omega)]
      rw [hget1]
      rcases hfc with hfc | hfc | hfc <;>
        rw [hfc, if_pos (by norm_num), if_neg (by norm_num),
          if_pos (show 8 ≤ (sealFrame body).length by omega), if_pos hcrc,
          hdrop, parseLoopF_nil, htake8]
    · have hbc : (sealFrame body).getD 6 0 = body.getD 6 0 :=
        List.getD_append _ _ _ _ (by omega)
      have hflen : (sealFrame body).length = 9 + body.getD 6 0 := by omega
      have hget1 : (sealFrame body).getD 1 0 = body.getD 1 0 :=
        List.getD_append _ _ _ _ (by omega)
      have hi1 : 9 + body.getD 6 0 - 2 = body.length := by omega
      have hi2 : 9 + body.getD 6 0 - 1 = body.length + 1 := by omega
      have hcrc : (sealFrame body).getD (9 + (sealFrame body).getD 6 0 - 2) 0 +
          256 * (sealFrame body).getD (9 + (sealFrame body).getD 6 0 - 1) 0 =
          calculateCRC ((sealFrame body).take (9 + (sealFrame body).getD 6 0 - 2)) := by
        rw [hbc, hi1, hi2]
        have hA : (sealFrame body).getD body.length 0 = calculateCRC body % 256 := by
          unfold sealFrame
          rw [List.getD_append_right _ _ _ _ (le_refl _)]
          simp
        have hB : (sealFrame body).getD (body.length + 1) 0 = calculateCRC body / 256 := by
          unfold sealFrame
          rw [List.getD_append_right _ _ _ _ (by omega)]
          simp
        have htake : (sealFrame body).take body.length = body := by
          unfold sealFrame
          rw [List.take_left]
        rw [hA, hB, htake, Nat.mod_add_div]
      have hdrop : (sealFrame body).drop (9 + (sealFrame body).getD 6 0) = [] := by
        rw [hbc, ← hflen, List.drop_length]
      have htakeL : (sealFrame body).take (9 + (sealFrame body).getD 6 0) = sealFrame body := by
        rw [hbc, ← hflen, List.take_length]
      simp only [parseLoopF]
      rw [if_pos (show 4 ≤ (sealFrame body).length by omega)]
      rw [hget1, hfc]
      rw [if_pos (by norm_num), if_pos rfl,
        if_pos (show 7 ≤ (sealFrame body).length by omega)]
      rw [if_pos (show 9 + (sealFrame body).getD 6 0 ≤ (sealFrame body).length by
        rw [hbc]; omega)]
      rw [if_pos hcrc, hdrop, parseLoopF_nil, htakeL]

lemma sealFrame_le_266 (body : List Nat) (h : WFBody body) :
    (sealFrame body).length ≤ 266 := by
  obtain ⟨hb, hcase⟩ := h
  have hlen : (sealFrame body).length = body.length + 2 := sealFrame_length body
  rcases hcase with ⟨_, h6⟩ | ⟨_, h7⟩
  · omega
  · have : body.getD 6 0 < 256 := getD_lt_of_bytes hb (by omega)
    omega

lemma pushEvent_memory (st : SimState) (e : Event) :
    (pushEvent st e).memory = st.memory := rfl

lemma pushEvent_unlockStates (st : SimState) (e : Event) :
    (pushEvent st e).unlockStates = st.unlockStates := rfl

lemma pushEvent_devices (st : SimState) (e : Event) :
    (pushEvent st e).devices = st.devices := rfl

lemma setUnlock_memory (st : SimState) (id : Nat) (u : UnlockState) :
    (setUnlock st id u).memory = st.memory := rfl

lemma setUnlock_devices (st : SimState) (id : Nat) (u : UnlockState) :
    (setUnlock st id u).devices = st.devices := rfl

lemma getMem_of_some {st : SimState} {id : Nat} {m : Store}
    (hm : alookup st.memory id = some m) : getMem st id = (m, st) := by
  unfold getMem
  rw [hm]

lemma getUnlockState_of_some {st : SimState} {id : Nat} {u : UnlockState}
    (hu : alookup st.unlockStates id = some u) : getUnlockState st id = (u, st) := by
  unfold getUnlockState
  rw [hu]

lemma getUnlockState_memory (st : SimState) (id : Nat) :
    (getUnlockState st id).2.memory = st.memory := by
  unfold getUnlockState
  cases alookup st.unlockStates id <;> rfl

lemma getUnlockState_devices (st : SimState) (id : Nat) :
    (getUnlockState st id).2.devices = st.devices := by
  unfold getUnlockState
  cases alookup st.unlockStates id <;> rfl

lemma alookup_cons_self {α : Type} (l : List (Nat × α)) (k : Nat) (v : α) :
    alookup ((k, v) :: l) k = some v := by
  unfold alookup
  rw [if_pos rfl]

lemma storeRead_write_eq (s : Store) (a v : Nat) (h : a < 65536) :
    storeRead (storeWrite s a v) a = v % 65536 := by
  simp [storeRead, storeWrite, alookup, h]

lemma storeRead_write_ne (s : Store) (a b v : Nat) (h : a ≠ b) :
    storeRead (storeWrite s b v) a = storeRead s a := by
  unfold storeRead storeWrite
  split_ifs with h1 h2 <;> simp_all [alookup]

lemma getMem_unlockStates (st : SimState) (id : Nat) :
    (getMem st id).2.unlockStates = st.unlockStates := by
  unfold getMem
  cases alookup st.memory id <;> rfl

lemma getMem_devices (st : SimState) (id : Nat) :
    (getMem st id).2.devices = st.devices := by
  unfold getMem
  cases alookup st.memory id <;> rfl

lemma writeMem_of_some {st : SimState} {id : Nat} {s : Store} (a v : Nat)
    (hm : alookup st.memory id = some s) :
    writeMem st id a v = { st with memory := (id, storeWrite s a v) :: st.memory } := by
  unfold writeMem
  rw [hm]

/-- Memory is untouched by a write validation whenever the device's
store already exists (the only memory effect the validator can have is
the lazy materialisation inside its `getMem` call). -/
lemma validate_memory {st : SimState} {id : Nat} {m : Store} (a v now : Nat)
    (hm : alookup st.memory id = some m) :
    (validateWriteRequest st a v id now).2.memory = st.memory := by
  unfold validateWriteRequest
  rw [getMem_of_some hm]
  rcases hc : controlRegCheck a v with _ | code <;>
    cases hu : alookup st.unlockStates id <;>
      simp only [getUnlockState, hu, hc] <;>
        split_ifs <;>
          simp [setUnlock, pushEvent]

/-- The validator never touches the device registry. -/
lemma validate_devices {st : SimState} {id : Nat} {m : Store} (a v now : Nat)
    (hm : alookup st.memory id = some m) :
    (validateWriteRequest st a v id now).2.devices = st.devices := by
  unfold validateWriteRequest
  rw [getMem_of_some hm]
  rcases hc : controlRegCheck a v with _ | code <;>
    cases hu : alookup st.unlockStates id <;>
      simp only [getUnlockState, hu, hc] <;>
        split_ifs <;>
          simp [setUnlock, pushEvent]

/-- A write that reaches neither the password shortcut nor any rejection
rule is accepted, whatever the unlock state is. -/
lemma validate_accepts {st : SimState} {id : Nat} {m : Store} (a v now : Nat)
    (hm : alookup st.memory id = some m)
    (h0 : a ≠ 0x0000)
    (hro : (a ∈ READ_ONLY_REGISTERS || isU00Register a || isU01Register a) = false)
    (hprot : storeRead m 0x0002 ≠ 1)
    (hctl : controlRegCheck a v = none) :
    (validateWriteRequest st a v id now).1 = none := by
  unfold validateWriteRequest
  rw [getMem_of_some hm]
  cases hu : alookup st.unlockStates id <;>
    simp only [getUnlockState, hu, hctl] <;>
      split_ifs <;> simp_all

/-- For an unlocked, non-expired device, an accepted write refreshes
`lastActivity` to `now` and changes nothing else. -/
lemma validate_unlocked_valid {st : SimState} {id : Nat} {m : Store} {t : Nat}
    (a v now : Nat)
    (hm : alookup st.memory id = some m)
    (hu : alookup st.unlockStates id = some ⟨true, t⟩)
    (hfresh : ¬(now - t > UNLOCK_TIMEOUT_MS))
    (h0 : a ≠ 0x0000)
    (hro : (a ∈ READ_ONLY_REGISTERS || isU00Register a || isU01Register a) = false)
    (hctl : controlRegCheck a v = none) :
    validateWriteRequest st a v id now = (none, setUnlock st id ⟨true, now⟩) := by
  unfold validateWriteRequest
  rw [getMem_of_some hm]
  simp only [getUnlockState, hu]
  simp [hfresh, h0, hro, hctl]

/-- A write to a read-only register by a device whose unlock state does
not time out is rejected with 0x02 and leaves the state unchanged. -/
lemma validate_readonly {st : SimState} {id : Nat} {m : Store} {u : UnlockState}
    (a v now : Nat)
    (hm : alookup st.memory id = some m)
    (hu : alookup st.unlockStates id = some u)
    (hnt : (u.unlocked && decide (now - u.lastActivity > UNLOCK_TIMEOUT_MS)) = false)
    (h0 : a ≠ 0x0000)
    (hro : (a ∈ READ_ONLY_REGISTERS || isU00Register a || isU01Register a) = true) :
    validateWriteRequest st a v id now = (some 0x02, st) := by
  unfold validateWriteRequest
  rw [getMem_of_some hm]
  simp only [getUnlockState, hu]
  simp [hnt, h0, hro]

/-- An expired unlock is cleared at the start of validation, whatever the
validated address and value are, and the auto-lock event is emitted. -/
lemma validate_expired {st : SimState} {id : Nat} {u : UnlockState} (a v now : Nat)
    (hu : alookup st.unlockStates id = some u)
    (hut : u.unlocked = true)
    (hexp : UNLOCK_TIMEOUT_MS < now - u.lastActivity) :
    alookup (validateWriteRequest st a v id now).2.unlockStates id =
      some ⟨false, u.lastActivity⟩ ∧
    Event.autoLocked id ∈ (validateWriteRequest st a v id now).2.events := by
  unfold validateWriteRequest
  have hul : alookup (getMem st id).2.unlockStates id = some u := by
    rw [getMem_unlockStates]; exact hu
  simp only [getUnlockState, hul]
  rcases hc : controlRegCheck a v with _ | code <;>
    simp only [hc] <;>
      split_ifs <;>
        simp_all [setUnlock, pushEvent, alookup_cons_self]

/-- FC03/FC04 dispatch never touches any unlock state. -/
lemma handleFrame_read_unlockStates (st : SimState) (now : Nat) (frame : List Nat)
    (hfc : frame.getD 1 0 = 3 ∨ frame.getD 1 0 = 4) :
    (handleFrame st now frame).2.unlockStates = st.unlockStates := by
  unfold handleFrame
  rcases hfc with hfc | hfc <;> rw [hfc] <;>
    · simp only [pushEvent]
      split_ifs <;> simp_all [getMem_unlockStates]

/-- Unfolding of `handleFrame` on an FC16 frame for a registered,
enabled device whose store exists. -/
lemma handleFrame_fc16_eq (st : SimState) (now : Nat) (frame : List Nat)
    (d : Device) (m : Store)
    (hdev : alookup st.devices (frame.getD 0 0) = some d)
    (hen : d.enabled = true)
    (hmem : alookup st.memory (frame.getD 0 0) = some m)
    (hfc : frame.getD 1 0 = 16) :
    handleFrame st now frame =
      (let unitID := frame.getD 0 0
       let addr := read16BE frame 2
       let count := read16BE frame 4
       let subs := subWrites addr ((frame.drop 7).take (frame.getD 6 0)) count
       let r := validateAll unitID now (pushEvent st (Event.writeMultiLog unitID addr count)) subs
       match r.1 with
       | some code => (some (buildExceptionResponse unitID 16 code), r.2)
       | none => (some (fc16Response unitID addr count), applyAll unitID now r.2 subs)) := by
  simp only [handleFrame, hdev, hfc, Option.isNone_some, isDeviceEnabled, hen,
    getMem_of_some hmem]
  norm_num

/-- Unfolding of `handleFrame` on an FC06 frame for a registered,
enabled device whose store exists. -/
lemma handleFrame_fc06_eq (st : SimState) (now : Nat) (frame : List Nat)
    (d : Device) (m : Store)
    (hdev : alookup st.devices (frame.getD 0 0) = some d)
    (hen : d.enabled = true)
    (hmem : alookup st.memory (frame.getD 0 0) = some m)
    (hfc : frame.getD 1 0 = 6) :
    handleFrame st now frame =
      (let unitID := frame.getD 0 0
       let addr := read16BE frame 2
       let val := read16BE frame 4
       let r := validateWriteRequest st addr val unitID now
       match r.1 with
       | some code =>
         (some (buildExceptionResponse unitID 6 code), pushEvent r.2 (Event.rejected unitID code))
       | none =>
         let st := writeMem r.2 unitID addr val
         let st := pushEvent (pushEvent st (Event.regUpdate unitID addr val))
           (Event.writeLog unitID addr val)
         let st := handlePasswordWrite st addr val unitID now
         let st := if addr = 0x2000 then handleControlCommand st val unitID else st
         let st := handleParameterWrite st addr val unitID
         (some frame, st)) := by
  simp only [handleFrame, hdev, hfc, Option.isNone_some, isDeviceEnabled, hen,
    getMem_of_some hmem]
  norm_num

/-- Unfolding of `handleFrame` on an FC03/FC04 frame for a registered,
enabled device whose store exists. -/
lemma handleFrame_fc34_eq (st : SimState) (now : Nat) (frame : List Nat)
    (d : Device) (m : Store)
    (hdev : alookup st.devices (frame.getD 0 0) = some d)
    (hen : d.enabled = true)
    (hmem : alookup st.memory (frame.getD 0 0) = some m)
    (hfc : frame.getD 1 0 = 3 ∨ frame.getD 1 0 = 4) :
    handleFrame st now frame =
      (let unitID := frame.getD 0 0
       let fc := frame.getD 1 0
       let addr := read16BE frame 2
       let count := read16BE frame 4
       let st1 := pushEvent st (Event.readLog unitID fc addr count)
       if count * 2 > 255 then (none, st1)
       else (some (readResponse unitID fc m addr count), st1)) := by
  rcases hfc with hfc | hfc <;>
    · simp only [handleFrame, hdev, hfc, Option.isNone_some, isDeviceEnabled, hen,
        getMem_of_some hmem]
      norm_num

/-- The FC16 validation loop never changes any register when the
device's store already exists: its only effects are on unlock states
and the event log. -/
lemma validateAll_memory (id now : Nat) (subs : List (Nat × Nat)) :
    ∀ (st : SimState) (m : Store), alookup st.memory id = some m →
      (validateAll id now st subs).2.memory = st.memory := by
  induction subs with
  | nil => intro st m hm; rfl
  | cons av rest ih =>
    intro st m hm
    obtain ⟨a, v⟩ := av
    simp only [validateAll]
    cases hr : validateWriteRequest st a v id now with
    | mk verdict st' =>
      have hmem' : st'.memory = st.memory := by
        have h := @validate_memory st id m a v now hm
        rw [hr] at h
        exact h
      cases verdict with
      | none =>
        have h2 : alookup st'.memory id = some m := by rw [hmem']; exact hm
        rw [ih st' m h2, hmem']
      | some code => simpa [pushEvent] using hmem'

lemma foldl_writeMem_lookup (id : Nat) (f : Nat → Nat) (regs : List Nat) :
    ∀ (st : SimState) (s : Store), alookup st.memory id = some s →
      alookup (regs.foldl (fun st r => writeMem st id r (f r)) st).memory id =
        some (regs.foldl (fun acc r => storeWrite acc r (f r)) s) := by
  induction regs with
  | nil => intro st s hm; exact hm
  | cons r rs ih =>
    intro st s hm
    simp only [List.foldl_cons]
    exact ih _ _ (by rw [writeMem_of_some _ _ hm]; exact alookup_cons_self _ _ _)

/-- A run command re-initialises the telemetry registers from the slave
id, on top of whatever store the device had. -/
lemma handleControlCommand_run_memory (st : SimState) (id val : Nat) (s : Store)
    (hm : alookup st.memory id = some s)
    (hval : val = 1 ∨ val = 2 ∨ val = 3 ∨ val = 4) :
    alookup (handleControlCommand st val id).memory id =
      some (ctrlRegs.foldl (fun acc r => storeWrite acc r (runValue id r)) s) := by
  simp only [handleControlCommand]
  rw [getMem_of_some
    (show alookup (pushEvent st (Event.controlCmd id val)).memory id = some s from hm)]
  rcases hval with rfl | rfl | rfl | rfl
  · rw [if_neg (show ¬((1:Nat) = 5 ∨ (1:Nat) = 6 ∨ (1:Nat) = 0) from by decide),
      if_pos (show (1:Nat) = 1 ∨ (1:Nat) = 2 ∨ (1:Nat) = 3 ∨ (1:Nat) = 4 from by decide)]
    simp only [pushEvent_memory]
    exact foldl_writeMem_lookup id _ ctrlRegs _ s hm
  · rw [if_neg (show ¬((2:Nat) = 5 ∨ (2:Nat) = 6 ∨ (2:Nat) = 0) from by decide),
      if_pos (show (2:Nat) = 1 ∨ (2:Nat) = 2 ∨ (2:Nat) = 3 ∨ (2:Nat) = 4 from by decide)]
    simp only [pushEvent_memory]
    exact foldl_writeMem_lookup id _ ctrlRegs _ s hm
  · rw [if_neg (show ¬((3:Nat) = 5 ∨ (3:Nat) = 6 ∨ (3:Nat) = 0) from by decide),
      if_pos (show (3:Nat) = 1 ∨ (3:Nat) = 2 ∨ (3:Nat) = 3 ∨ (3:Nat) = 4 from by decide)]
    simp only [pushEvent_memory]
    exact foldl_writeMem_lookup id _ ctrlRegs _ s hm
  · rw [if_neg (show ¬((4:Nat) = 5 ∨ (4:Nat) = 6 ∨ (4:Nat) = 0) from by decide),
      if_pos (show (4:Nat) = 1 ∨ (4:Nat) = 2 ∨ (4:Nat) = 3 ∨ (4:Nat) = 4 from by decide)]
    simp only [pushEvent_memory]
    exact foldl_writeMem_lookup id _ ctrlRegs _ s hm

lemma handlePasswordWrite_ne (st : SimState) (a v id now : Nat) (h : a ≠ 0) :
    handlePasswordWrite st a v id now = st := by
  simp [handlePasswordWrite, h]

lemma handleParameterWrite_other (st : SimState) (a v id : Nat)
    (h : ¬(a = 0x8000 ∨ a = 0x8001 ∨ a = 0x8006 ∨ a = 0x8200 ∨ a = 0x840A)) :
    handleParameterWrite st a v id = st := by
  simp [handleParameterWrite, h]

lemma run_store_reads (id : Nat) (s : Store) :
    storeRead (runStore id s) 0x3000 = id * 1000 % 65536 ∧
    storeRead (runStore id s) 0x0300 = id * 1000 % 65536 ∧
    storeRead (runStore id s) 0x3002 = (100 + id * 10) * 10 % 65536 ∧
    storeRead (runStore id s) 0x0302 = (100 + id * 10) * 10 % 65536 ∧
    storeRead (runStore id s) 0x3003 = id * 10 % 65536 ∧
    storeRead (runStore id s) 0x0303 = id * 10 % 65536 ∧
    storeRead (runStore id s) 0x3004 = id * 10 % 65536 ∧
    storeRead (runStore id s) 0x0304 = id * 10 % 65536 ∧
    storeRead (runStore id s) 0x3005 = id * 100 % 65536 ∧
    storeRead (runStore id s) 0x0305 = id * 100 % 65536 ∧
    storeRead (runStore id s) 0x3023 = id % 65536 ∧
    storeRead (runStore id s) 0x0323 = id % 65536 := by
  simp only [runStore, ctrlRegs, List.foldl_cons, List.foldl_nil]
  repeat' constructor
  all_goals simp [storeRead_write_eq, storeRead_write_ne, runValue]
  all_goals omega

/-- Claim C1: for every FC16 request to an enabled inverter device whose
store exists, the dispatcher validates the sub-writes in order before
writing anything; if validation fails it sends an exception response
carrying the first failure's exception code and no register of the
device is mutated, and if all sub-writes pass it applies all writes with
the reactive hooks for each (the final state is exactly the write loop
applied to the post-validation state). -/
theorem fc16_atomicity (st : SimState) (now : Nat) (frame : List Nat) (d : Device) (m : Store)
    (V : Option Nat × SimState)
    (hdev : alookup st.devices (frame.getD 0 0) = some d)
    (htype : d.type = DevType.inverter)
    (hen : d.enabled = true)
    (hmem : alookup st.memory (frame.getD 0 0) = some m)
    (hfc : frame.getD 1 0 = 16)
    (hlen : frame.length = 9 + frame.getD 6 0)
    (hbc : frame.getD 6 0 = 2 * read16BE frame 4)
    (hV : V = validateAll (frame.getD 0 0) now
      (pushEvent st (Event.writeMultiLog (frame.getD 0 0) (read16BE frame 2) (read16BE frame 4)))
      (subWrites (read16BE frame 2) ((frame.drop 7).take (frame.getD 6 0))
        (read16BE frame 4))) :
    (V.1.isSome = true →
      (handleFrame st now frame).1 =
        some (buildExceptionResponse (frame.getD 0 0) 16 (V.1.getD 0)) ∧
      alookup (handleFrame st now frame).2.memory (frame.getD 0 0) = some m) ∧
    (V.1 = none →
      handleFrame st now frame =
        (some (fc16Response (frame.getD 0 0) (read16BE frame 2) (read16BE frame 4)),
          applyAll (frame.getD 0 0) now V.2
            (subWrites (read16BE frame 2) ((frame.drop 7).take (frame.getD 6 0))
              (read16BE frame 4)))) := by
  have heq := handleFrame_fc16_eq st now frame d m hdev hen hmem hfc
  have hvmem : V.2.memory = st.memory := by
    rw [hV]
    exact validateAll_memory (frame.getD 0 0) now _ _ m hmem
  rw [heq]
  simp only []
  rw [← hV]
  cases hVd : V with
  | mk verdict stv =>
    rw [hVd] at hvmem
    cases verdict with
    | some code =>
      refine ⟨fun _ => ⟨rfl, ?_⟩, fun hnone => by simp at hnone⟩
      show alookup stv.memory (frame.getD 0 0) = some m
      rw [hvmem]
      exact hmem
    | none =>
      exact ⟨fun hsome => by simp at hsome, fun _ => rfl⟩

/-- Witness for claim C1 at a concrete accepted FC16 request. -/
theorem fc16_atomicity_witness :
    handleFrame atomState 100 [1, 16, 11, 21, 0, 1, 2, 0, 50, 0, 0] =
      (some (fc16Response 1 2837 1),
        applyAll 1 100
          (validateAll 1 100 (pushEvent atomState (Event.writeMultiLog 1 2837 1))
            (subWrites 2837 [0, 50] 1)).2
          (subWrites 2837 [0, 50] 1)) :=
  (fc16_atomicity atomState 100 [1, 16, 11, 21, 0, 1, 2, 0, 50, 0, 0]
    ⟨DevType.inverter, true⟩ inverterDefaults
    (validateAll 1 100 (pushEvent atomState (Event.writeMultiLog 1 2837 1))
      (subWrites 2837 [0, 50] 1))
    (by decide) rfl rfl (by decide) rfl (by decide) (by decide) rfl).2 (by decide)

/-- Claim C2 (code bug): writing the wrong non-zero password 5 to
register 0x0000 of a device whose stored password is 1234 unlocks the
device and emits the unlocked event, because `handlePasswordWrite` runs
after the dispatcher has already overwritten 0x0000 and so compares the
written value with itself; the claim (and the code's own unreachable
wrong-password branch) expect the device to stay locked and a warning
event. -/
theorem wrong_password_unlocks :
    alookup (handleFrame pwdState 777 [1, 6, 0, 0, 0, 5, 0, 0]).2.unlockStates 1 =
      some ⟨true, 777⟩ ∧
    Event.unlockedViaPassword 1 ∈ (handleFrame pwdState 777 [1, 6, 0, 0, 0, 5, 0, 0]).2.events ∧
    Event.wrongPassword 1 ∉ (handleFrame pwdState 777 [1, 6, 0, 0, 0, 5, 0, 0]).2.events := by
  refine ⟨by decide, by decide, by decide⟩

/-- Claim C3 counterexample: an FC06 write to register 0x3000 of an
enabled flowmeter is rejected with exception code 0x02 (the response's
second byte is 0x86), refuting that writes to non-inverter devices are
always permitted. -/
theorem flowmeter_write_rejected :
    (handleFrame flowState 0 [110, 6, 48, 0, 0, 1, 0, 0]).1 =
      some (buildExceptionResponse 110 6 2) ∧
    (buildExceptionResponse 110 6 2).getD 1 0 = 134 := by
  refine ⟨by decide, by decide⟩

/-- Claim C3 (amended): the write validator never consults the device
type or the registry at all: given the same memory and unlock state its
verdict is identical whatever the devices map holds, so flowmeter and
energymeter writes are validated by the same inverter rules. -/
theorem validator_ignores_device_type (st1 st2 : SimState) (addr val id now : Nat)
    (hm : (alookup st1.memory id).isSome = true)
    (hmem : st1.memory = st2.memory)
    (hus : st1.unlockStates = st2.unlockStates) :
    (validateWriteRequest st1 addr val id now).1 =
      (validateWriteRequest st2 addr val id now).1 := by
  obtain ⟨m, hm1⟩ : ∃ m, alookup st1.memory id = some m := by
    cases h : alookup st1.memory id with
    | some m => exact ⟨m, rfl⟩
    | none => rw [h] at hm; simp at hm
  have hm2 : alookup st2.memory id = some m := by rw [← hmem]; exact hm1
  unfold validateWriteRequest
  rw [getMem_of_some hm1, getMem_of_some hm2]
  cases hu : alookup st1.unlockStates id with
  | some u =>
    have hu2 : alookup st2.unlockStates id = some u := by rw [← hus]; exact hu
    simp only [getUnlockState, hu, hu2]
    rcases hc : controlRegCheck addr val with _ | code <;>
      simp only [hc] <;> split_ifs <;> rfl
  | none =>
    have hu2 : alookup st2.unlockStates id = none := by rw [← hus]; exact hu
    simp only [getUnlockState, hu, hu2]
    rcases hc : controlRegCheck addr val with _ | code <;>
      simp only [hc] <;> split_ifs <;> rfl

/-- Witness for claim C3: the same write verdict for the flowmeter and
for the identical device re-typed as an inverter. -/
theorem validator_ignores_device_type_witness :
    (validateWriteRequest flowState 12288 5 110 0).1 =
      (validateWriteRequest flowAsInverter 12288 5 110 0).1 :=
  validator_ignores_device_type flowState flowAsInverter 12288 5 110 0
    (by decide) rfl rfl

/-- Claim C4 counterexample: an FC03 request with count 0, which lies
outside 1..=125, receives a normal read response whose function-code
byte is 3 — not the exception-0x03 response the claim requires. -/
theorem fc03_count0_no_exception :
    (handleFrame readState 0 [1, 3, 0, 0, 0, 0, 0, 0]).1 =
      some (readResponse 1 3 inverterDefaults 0 0) ∧
    (readResponse 1 3 inverterDefaults 0 0).getD 1 0 = 3 ∧
    (readResponse 1 3 inverterDefaults 0 0).getD 1 0 ≠ 3 ||| 0x80 := by
  refine ⟨by decide, by decide, by decide⟩

/-- Claim C4 (amended): for every FC03/FC04 request to an enabled
device whose store exists, a count up to 127 yields the response
[id][fc][2*count][values big-endian][crc little-endian] with values read
from the bank at start_addr+i, and a count of 128 or more yields no
response at all (the byte-count write fails); no count-range exception
is ever sent. -/
theorem fc34_no_count_check (st : SimState) (now : Nat) (frame : List Nat)
    (d : Device) (m : Store)
    (hdev : alookup st.devices (frame.getD 0 0) = some d)
    (hen : d.enabled = true)
    (hmem : alookup st.memory (frame.getD 0 0) = some m)
    (hfc : frame.getD 1 0 = 3 ∨ frame.getD 1 0 = 4) :
    (read16BE frame 4 ≤ 127 →
      (handleFrame st now frame).1 =
        some (readResponse (frame.getD 0 0) (frame.getD 1 0) m (read16BE frame 2)
          (read16BE frame 4))) ∧
    (128 ≤ read16BE frame 4 → (handleFrame st now frame).1 = none) := by
  have heq := handleFrame_fc34_eq st now frame d m hdev hen hmem hfc
  rw [heq]
  simp only []
  constructor
  · intro h
    rw [if_neg (show ¬(read16BE frame 4 * 2 > 255) by omega)]
  · intro h
    rw [if_pos (show read16BE frame 4 * 2 > 255 by omega)]

/-- Witness for claim C4: the specification's scenario 1 read of two
registers at 0x3000. -/
theorem fc34_no_count_check_witness :
    (handleFrame readState 0 [1, 3, 48, 0, 0, 2, 0, 0]).1 =
      some (readResponse 1 3 inverterDefaults 12288 2) :=
  (fc34_no_count_check readState 0 [1, 3, 48, 0, 0, 2, 0, 0] ⟨DevType.inverter, true⟩
    inverterDefaults (by decide) rfl (by decide) (Or.inl rfl)).1 (by decide)

/-- Claim C5: CRC round-trip. For every well-formed frame body (byte
values, supported function code, the length the parser expects), feeding
the CRC-sealed frame's bytes to the parser yields exactly that frame
back and consumes the whole buffer. -/
theorem crc_roundtrip (body : List Nat) (h : WFBody body) :
    processBuffer (sealFrame body) = ([sealFrame body], []) := by
  unfold processBuffer
  rw [if_neg (by have := sealFrame_le_266 body h; omega)]
  exact parseLoopF_seal _ _ h (le_refl _)

/-- Witness for claim C5 at a concrete FC03 frame. -/
theorem crc_roundtrip_witness :
    WFBody [1, 3, 48, 0, 0, 2] ∧
      processBuffer (sealFrame [1, 3, 48, 0, 0, 2]) = ([sealFrame [1, 3, 48, 0, 0, 2]], []) :=
  ⟨by decide, crc_roundtrip [1, 3, 48, 0, 0, 2] (by decide)⟩

/-- Claim C6 counterexample: two noise bytes [1, 16] that do not
themselves form a valid frame, followed by a complete well-formed FC03
frame, make the parser read a phantom FC16 byte count whose implied
length exceeds the data, so it waits for more bytes: no frame at all is
emitted although a valid frame is embedded. -/
theorem phantom_fc16_header_stalls :
    WFBody [1, 3, 0, 0, 2, 0] ∧
      (processBuffer (1 :: 16 :: sealFrame [1, 3, 0, 0, 2, 0])).1 = [] := by
  constructor
  · decide
  · decide

/-- Claim C6 (amended): when noise fails the parser's checks
immediately — here a single noise byte followed by a well-formed frame
whose first byte is not a supported function code — the parser advances
by exactly one byte and emits exactly the embedded frame. -/
theorem single_noise_byte_resync (b : Nat) (body : List Nat) (h : WFBody body)
    (hid : ¬(body.getD 0 0 = 3 ∨ body.getD 0 0 = 4 ∨ body.getD 0 0 = 6 ∨ body.getD 0 0 = 16)) :
    processBuffer (b :: sealFrame body) = ([sealFrame body], []) := by
  have hlen : (sealFrame body).length = body.length + 2 := sealFrame_length body
  have hlb : 6 ≤ body.length := by
    rcases h.2 with ⟨_, h6⟩ | ⟨_, h7⟩ <;> omega
  unfold processBuffer
  rw [if_neg (by
    have := sealFrame_le_266 body h
    simp only [List.length_cons]
    omega)]
  have hcons : (b :: sealFrame body).length = (sealFrame body).length + 1 := rfl
  rw [hcons]
  simp only [parseLoopF]
  rw [if_pos (by simp only [List.length_cons]; omega)]
  have hget1 : (b :: sealFrame body).getD 1 0 = body.getD 0 0 := by
    show (sealFrame body).getD 0 0 = body.getD 0 0
    exact List.getD_append _ _ _ _ (by omega)
  rw [hget1]
  rw [if_neg hid]
  show parseLoopF (sealFrame body).length (sealFrame body) = ([sealFrame body], [])
  exact parseLoopF_seal _ _ h (le_refl _)

/-- Witness for claim C6 with noise byte 99 before an FC03 frame of
slave 7. -/
theorem single_noise_byte_resync_witness :
    (WFBody [7, 3, 0, 0, 1, 0] ∧
      ¬((7:Nat) = 3 ∨ (7:Nat) = 4 ∨ (7:Nat) = 6 ∨ (7:Nat) = 16)) ∧
      processBuffer (99 :: sealFrame [7, 3, 0, 0, 1, 0]) = ([sealFrame [7, 3, 0, 0, 1, 0]], []) :=
  ⟨⟨by decide, by decide⟩,
    single_noise_byte_resync 99 [7, 3, 0, 0, 1, 0] (by decide) (by decide)⟩

/-- Claim C7 counterexample: an operator set-register to the
unregistered id 42 materialises a memory store for 42 while 42 stays
absent from the registry, violating the memory-iff-registered
invariant. -/
theorem operator_write_allocates_unregistered :
    (alookup (setRegister rosterState 42 5 7).memory 42).isSome = true ∧
    alookup (setRegister rosterState 42 5 7).devices 42 = none ∧
    alookup rosterState.memory 42 = none := by
  refine ⟨by decide, by decide, by decide⟩

/-- Claim C7 (amended): Modbus frame dispatch allocates no memory and
produces no response for a slave id absent from the registry — the
state is returned unchanged; operator access, by contrast, allocates a
store for any id. -/
theorem unregistered_frame_noop (st : SimState) (now : Nat) (frame : List Nat)
    (h : alookup st.devices (frame.getD 0 0) = none) :
    handleFrame st now frame = (none, st) := by
  simp only [handleFrame]
  rw [if_pos (show (alookup st.devices (frame.getD 0 0)).isNone = true by rw [h]; rfl)]

/-- Witness for claim C7: a read addressed to unregistered id 9. -/
theorem unregistered_frame_noop_witness :
    handleFrame rosterState 0 [9, 3, 0, 0, 0, 1, 0, 0] = (none, rosterState) :=
  unregistered_frame_noop rosterState 0 [9, 3, 0, 0, 0, 1, 0, 0] (by decide)

/-- Claim C8: if a device is unlocked and more than the 5-minute
timeout has passed since its last activity, the device is re-locked at
the start of any write validation, whatever the validated address and
value are (keeping lastActivity and emitting the info event); and
FC03/FC04 dispatch never touches any unlock state, so reads never
postpone expiry. -/
theorem unlock_expiry (st : SimState) (a v id now : Nat) (u : UnlockState)
    (st2 : SimState) (now2 : Nat) (frame : List Nat)
    (hu : alookup st.unlockStates id = some u)
    (hut : u.unlocked = true)
    (hexp : UNLOCK_TIMEOUT_MS < now - u.lastActivity)
    (hfc : frame.getD 1 0 = 3 ∨ frame.getD 1 0 = 4) :
    (alookup (validateWriteRequest st a v id now).2.unlockStates id =
        some ⟨false, u.lastActivity⟩ ∧
      Event.autoLocked id ∈ (validateWriteRequest st a v id now).2.events) ∧
    (handleFrame st2 now2 frame).2.unlockStates = st2.unlockStates :=
  ⟨validate_expired a v now hu hut hexp, handleFrame_read_unlockStates st2 now2 frame hfc⟩

/-- Witness for claim C8 on a device unlocked at time 0 validated at
time 400000. -/
theorem unlock_expiry_witness :
    (alookup (validateWriteRequest expiredState 0x0B15 50 7 400000).2.unlockStates 7 =
        some ⟨false, 0⟩ ∧
      Event.autoLocked 7 ∈ (validateWriteRequest expiredState 0x0B15 50 7 400000).2.events) ∧
    (handleFrame expiredState 400000 [7, 3, 0, 0, 0, 1, 0, 0]).2.unlockStates =
      expiredState.unlockStates :=
  unlock_expiry expiredState 0x0B15 50 7 400000 ⟨true, 0⟩ expiredState 400000
    [7, 3, 0, 0, 0, 1, 0, 0] (by decide) (by decide) (by decide) (by decide)

/-- Claim C9 counterexample: an accepted run command on slave 66 stores
66 * 1000 truncated to 16 bits, so reading 0x3000 afterwards returns
464, not 66000. -/
theorem control_command_id66_truncates :
    (handleFrame st66 0 [66, 6, 32, 0, 0, 1, 0, 0]).1 = some [66, 6, 32, 0, 0, 1, 0, 0] ∧
    storeRead ((alookup (handleFrame st66 0 [66, 6, 32, 0, 0, 1, 0, 0]).2.memory 66).getD [])
      0x3000 = 464 ∧
    (464 : Nat) ≠ 66 * 1000 := by
  refine ⟨by decide, by decide, by decide⟩

/-- Claim C9 (amended): an accepted FC06 write of a run value 1..4 to
inverter register 0x2000 on slave id sets frequency = id*1000,
voltage = (100+10*id)*10, current = id*10, power = id*10,
speed = id*100 and energy = id — each reduced mod 2^16 by the 16-bit
store — in both the 0x3000-range registers and their 0x0300-range
mirrors. -/
theorem control_command_telemetry (st : SimState) (id now val : Nat) (m : Store)
    (hdev : alookup st.devices id = some ⟨DevType.inverter, true⟩)
    (hmem : alookup st.memory id = some m)
    (hprot : storeRead m 0x0002 ≠ 1)
    (hval : val = 1 ∨ val = 2 ∨ val = 3 ∨ val = 4) :
    (handleFrame st now [id, 6, 32, 0, 0, val, 0, 0]).1 = some [id, 6, 32, 0, 0, val, 0, 0] ∧
    storeRead ((alookup (handleFrame st now [id, 6, 32, 0, 0, val, 0, 0]).2.memory id).getD [])
      0x3000 = id * 1000 % 65536 ∧
    storeRead ((alookup (handleFrame st now [id, 6, 32, 0, 0, val, 0, 0]).2.memory id).getD [])
      0x0300 = id * 1000 % 65536 ∧
    storeRead ((alookup (handleFrame st now [id, 6, 32, 0, 0, val, 0, 0]).2.memory id).getD [])
      0x3002 = (100 + id * 10) * 10 % 65536 ∧
    storeRead ((alookup (handleFrame st now [id, 6, 32, 0, 0, val, 0, 0]).2.memory id).getD [])
      0x0302 = (100 + id * 10) * 10 % 65536 ∧
    storeRead ((alookup (handleFrame st now [id, 6, 32, 0, 0, val, 0, 0]).2.memory id).getD [])
      0x3003 = id * 10 % 65536 ∧
    storeRead ((alookup (handleFrame st now [id, 6, 32, 0, 0, val, 0, 0]).2.memory id).getD [])
      0x0303 = id * 10 % 65536 ∧
    storeRead ((alookup (handleFrame st now [id, 6, 32, 0, 0, val, 0, 0]).2.memory id).getD [])
      0x3004 = id * 10 % 65536 ∧
    storeRead ((alookup (handleFrame st now [id, 6, 32, 0, 0, val, 0, 0]).2.memory id).getD [])
      0x0304 = id * 10 % 65536 ∧
    storeRead ((alookup (handleFrame st now [id, 6, 32, 0, 0, val, 0, 0]).2.memory id).getD [])
      0x3005 = id * 100 % 65536 ∧
    storeRead ((alookup (handleFrame st now [id, 6, 32, 0, 0, val, 0, 0]).2.memory id).getD [])
      0x0305 = id * 100 % 65536 ∧
    storeRead ((alookup (handleFrame st now [id, 6, 32, 0, 0, val, 0, 0]).2.memory id).getD [])
      0x3023 = id % 65536 ∧
    storeRead ((alookup (handleFrame st now [id, 6, 32, 0, 0, val, 0, 0]).2.memory id).getD [])
      0x0323 = id % 65536 := by
  have heq := handleFrame_fc06_eq st now [id, 6, 32, 0, 0, val, 0, 0]
    ⟨DevType.inverter, true⟩ m hdev rfl hmem rfl
  have hctl : controlRegCheck 8192 val = none := by
    rcases hval with rfl | rfl | rfl | rfl <;> decide
  have hv1 : (validateWriteRequest st 8192 val id now).1 = none :=
    validate_accepts _ _ _ hmem (by decide) (by decide) hprot hctl
  have hr4 : read16BE [id, 6, 32, 0, 0, val, 0, 0] 4 = val := by
    show (0 : Nat) * 256 + val = val
    omega
  rw [heq]
  simp only []
  rw [show read16BE [id, 6, 32, 0, 0, val, 0, 0] 2 = 8192 from rfl, hr4,
    show ([id, 6, 32, 0, 0, val, 0, 0] : List Nat).getD 0 0 = id from rfl]
  cases hr : validateWriteRequest st 8192 val id now with
  | mk verdict stv =>
    have hverd : verdict = none := by rw [hr] at hv1; exact hv1
    subst hverd
    have hsm : alookup stv.memory id = some m := by
      have h := @validate_memory st id m 8192 val now hmem
      rw [hr] at h
      rw [h]
      exact hmem
    simp only []
    rw [handlePasswordWrite_ne _ _ _ _ _ (by decide),
      if_pos (by trivial),
      handleParameterWrite_other _ _ _ _ (by decide)]
    have hbase : alookup (pushEvent (pushEvent (writeMem stv id 8192 val)
        (Event.regUpdate id 8192 val)) (Event.writeLog id 8192 val)).memory id =
        some (storeWrite m 8192 val) := by
      rw [pushEvent_memory, pushEvent_memory, writeMem_of_some _ _ hsm]
      exact alookup_cons_self _ _ _
    have hM := handleControlCommand_run_memory _ id val (storeWrite m 8192 val) hbase hval
    rw [hM]
    simp only [Option.getD_some]
    exact ⟨by trivial, (run_store_reads id (storeWrite m 8192 val)).1,
      (run_store_reads id (storeWrite m 8192 val)).2.1,
      (run_store_reads id (storeWrite m 8192 val)).2.2.1,
      (run_store_reads id (storeWrite m 8192 val)).2.2.2.1,
      (run_store_reads id (storeWrite m 8192 val)).2.2.2.2.1,
      (run_store_reads id (storeWrite m 8192 val)).2.2.2.2.2.1,
      (run_store_reads id (storeWrite m 8192 val)).2.2.2.2.2.2.1,
      (run_store_reads id (storeWrite m 8192 val)).2.2.2.2.2.2.2.1,
      (run_store_reads id (storeWrite m 8192 val)).2.2.2.2.2.2.2.2.1,
      (run_store_reads id (storeWrite m 8192 val)).2.2.2.2.2.2.2.2.2.1,
      (run_store_reads id (storeWrite m 8192 val)).2.2.2.2.2.2.2.2.2.2.1,
      (run_store_reads id (storeWrite m 8192 val)).2.2.2.2.2.2.2.2.2.2.2⟩

/-- Witness for claim C9: after writing 1 to 0x2000 on slave 1, reading
0x3000 returns 0x03E8. -/
theorem control_command_telemetry_witness :
    (handleFrame readState 0 [1, 6, 32, 0, 0, 1, 0, 0]).1 = some [1, 6, 32, 0, 0, 1, 0, 0] ∧
    storeRead ((alookup (handleFrame readState 0 [1, 6, 32, 0, 0, 1, 0, 0]).2.memory 1).getD [])
      0x3000 = 0x03E8 :=
  ⟨(control_command_telemetry readState 1 0 1 inverterDefaults (by decide) (by decide)
      (by decide) (Or.inl rfl)).1,
    (control_command_telemetry readState 1 0 1 inverterDefaults (by decide) (by decide)
      (by decide) (Or.inl rfl)).2.1⟩

/-- Claim C10: for an unlocked, non-expired inverter, an FC16 request
whose first sub-write (0x20FF) passes validation and whose second
(read-only 0x2100) fails is rejected with exception code 0x02 and
mutates no register, yet validating the first sub-write has refreshed
last_activity_ms to now — the rejected request postpones the auto-lock
deadline. -/
theorem rejected_fc16_refreshes_activity (st : SimState) (id now t : Nat) (m : Store)
    (b1 b2 b3 b4 : Nat)
    (hdev : alookup st.devices id = some ⟨DevType.inverter, true⟩)
    (hmem : alookup st.memory id = some m)
    (hu : alookup st.unlockStates id = some ⟨true, t⟩)
    (hfresh : now - t ≤ UNLOCK_TIMEOUT_MS) :
    (handleFrame st now [id, 16, 32, 255, 0, 2, 4, b1, b2, b3, b4, 0, 0]).1 =
      some (buildExceptionResponse id 16 2) ∧
    (handleFrame st now [id, 16, 32, 255, 0, 2, 4, b1, b2, b3, b4, 0, 0]).2.memory =
      st.memory ∧
    alookup (handleFrame st now [id, 16, 32, 255, 0, 2, 4, b1, b2, b3, b4, 0, 0]).2.unlockStates
      id = some ⟨true, now⟩ := by
  have heq := handleFrame_fc16_eq st now [id, 16, 32, 255, 0, 2, 4, b1, b2, b3, b4, 0, 0]
    ⟨DevType.inverter, true⟩ m hdev rfl hmem rfl
  have h1 : validateWriteRequest (pushEvent st (Event.writeMultiLog id 8447 2))
      8447 (b1 * 256 + b2) id now =
      (none, setUnlock (pushEvent st (Event.writeMultiLog id 8447 2)) id ⟨true, now⟩) :=
    validate_unlocked_valid _ _ _ hmem hu (by omega) (by decide) (by decide)
      (by simp [controlRegCheck])
  have h2 : validateWriteRequest
      (setUnlock (pushEvent st (Event.writeMultiLog id 8447 2)) id ⟨true, now⟩)
      8448 (b3 * 256 + b4) id now =
      (some 2, setUnlock (pushEvent st (Event.writeMultiLog id 8447 2)) id ⟨true, now⟩) :=
    validate_readonly _ _ _ hmem (alookup_cons_self _ _ _) (by simp) (by decide) (by decide)
  have hva : validateAll id now (pushEvent st (Event.writeMultiLog id 8447 2))
      [(8447, b1 * 256 + b2), (8448, b3 * 256 + b4)] =
      (some 2, pushEvent (setUnlock (pushEvent st (Event.writeMultiLog id 8447 2)) id
        ⟨true, now⟩) (Event.rejected id 2)) := by
    simp only [validateAll, h1, h2]
  rw [heq]
  simp only []
  rw [show read16BE [id, 16, 32, 255, 0, 2, 4, b1, b2, b3, b4, 0, 0] 2 = 8447 from rfl,
    show read16BE [id, 16, 32, 255, 0, 2, 4, b1, b2, b3, b4, 0, 0] 4 = 2 from rfl,
    show ([id, 16, 32, 255, 0, 2, 4, b1, b2, b3, b4, 0, 0].drop 7).take
      ([id, 16, 32, 255, 0, 2, 4, b1, b2, b3, b4, 0, 0].getD 6 0) = [b1, b2, b3, b4] from rfl,
    show ([id, 16, 32, 255, 0, 2, 4, b1, b2, b3, b4, 0, 0] : List Nat).getD 0 0 = id from rfl,
    show subWrites 8447 [b1, b2, b3, b4] 2 =
      [(8447, b1 * 256 + b2), (8448, b3 * 256 + b4)] from rfl,
    hva]
  refine ⟨rfl, by simp [pushEvent, setUnlock], alookup_cons_self _ _ _⟩

/-- Witness for claim C10 on slave 5 unlocked at time 100, request at
time 200. -/
theorem rejected_fc16_refreshes_activity_witness :
    (handleFrame unlockedState 200 [5, 16, 32, 255, 0, 2, 4, 0, 1, 0, 2, 0, 0]).1 =
      some (buildExceptionResponse 5 16 2) ∧
    (handleFrame unlockedState 200 [5, 16, 32, 255, 0, 2, 4, 0, 1, 0, 2, 0, 0]).2.memory =
      unlockedState.memory ∧
    alookup
      (handleFrame unlockedState 200 [5, 16, 32, 255, 0, 2, 4, 0, 1, 0, 2, 0, 0]).2.unlockStates
      5 = some ⟨true, 200⟩ :=
  rejected_fc16_refreshes_activity unlockedState 5 200 100 inverterDefaults 0 1 0 2
    (by decide) (by decide) (by decide) (by decide)
